import Mathlib

/-!
Verification development for the reactive-stream core:
a disposal tree (Subscription), a Subscriber forwarding notifications to a
destination, the operator-lifting mechanism, and the exhaust flattening
operator (src/internal/operators/exhaustAll.ts).
-/

/-- Models the three-variant notification protocol: NEXT carries a value,
ERROR carries an error object, COMPLETE carries nothing. -/
inductive Notification (α ε : Type) where
  | next (v : α)
  | error (e : ε)
  | complete
deriving DecidableEq, Repr

/-- Observable effect of a Subscriber operation: either a notification sent
to the destination channel, or a finalizer (identified by its registration
label) running during teardown of the bound disposal node. -/
inductive Ev (α ε : Type) where
  | notif (n : Notification α ε)
  | final (f : Nat)
deriving DecidableEq, Repr

/-- Modelled from the spec: the Subscription class (the disposal-tree node,
src/internal/Subscription) is not under src/ (only its uses are). Per spec
section 4.1 a node holds a monotonic closed flag and an ordered collection of
finalizer actions; finalizers are identified here by Nat labels in
registration order. -/
structure Subscription where
  closed : Bool
  finalizers : List Nat
deriving DecidableEq, Repr

/-- Modelled from the spec: Subscription.close / unsubscribe is not under
src/. Per spec section 4.1 close is a no-op when already closed; otherwise it
sets closed, runs every finalizer in registration order exactly once, and
subsequent closes do nothing. Returns the new node and the list of finalizer
labels that ran. -/
def Subscription.close (s : Subscription) : Subscription × List Nat :=
  if s.closed then (s, [])
  else ({ closed := true, finalizers := [] }, s.finalizers)

/-- Modelled from the spec: the Subscriber produced by
createSubscriber(destination, disposalNode) is not under src/ (only its test
file is). Per spec section 4.2 it holds a closed flag and the bound
disposal-tree node; the destination channel is represented by the event list
each operation returns. -/
structure Subscriber where
  closed : Bool
  subs : Subscription
deriving DecidableEq, Repr

/-- Modelled from the spec: Subscriber.next is not under src/. Per spec
section 4.2: if closed, no-op; otherwise send NEXT(value) to the destination;
closed state does not change. -/
def Subscriber.next (s : Subscriber) (v : α) : Subscriber × List (Ev α ε) :=
  if s.closed then (s, [])
  else (s, [Ev.notif (Notification.next v)])

/-- Modelled from the spec: Subscriber.error is not under src/. Per spec
section 4.2: if closed, no-op; otherwise mark closed, send ERROR(err) to the
destination, then close the bound disposal node (its finalizers run after the
notification is delivered). -/
def Subscriber.error (s : Subscriber) (e : ε) : Subscriber × List (Ev α ε) :=
  if s.closed then (s, [])
  else
    let (sub2, runs) := s.subs.close
    ({ closed := true, subs := sub2 },
      Ev.notif (Notification.error e) :: runs.map Ev.final)

/-- Modelled from the spec: Subscriber.complete is not under src/. Per spec
section 4.2: symmetric to error, with COMPLETE and no payload. -/
def Subscriber.complete (s : Subscriber) : Subscriber × List (Ev α ε) :=
  if s.closed then (s, [])
  else
    let (sub2, runs) := s.subs.close
    ({ closed := true, subs := sub2 },
      Ev.notif Notification.complete :: runs.map Ev.final)

/-- Runs a sequence of next calls on a Subscriber, threading the state and
concatenating the destination events in order. -/
def Subscriber.runNexts (s : Subscriber) : List α → Subscriber × List (Ev α ε)
  | [] => (s, [])
  | v :: vs =>
    let (s1, e1) := Subscriber.next s v
    let (s2, e2) := Subscriber.runNexts s1 vs
    (s2, e1 ++ e2)

/-- True exactly on finalizer events, false on notifications. -/
def isFinalEv : Ev α ε → Bool
  | Ev.final _ => true
  | Ev.notif _ => false

/-- Modelled from the spec: operate (src/internal/util/lift.ts) is not under
src/ (only its caller exhaustAll is). Per spec sections 4.3 and 7, a failure
thrown synchronously by the transform while wiring up is converted into an
error notification delivered to the outer Subscriber; a Transform that
returns normally yields the wired-up result unchanged. -/
def operate (transform : Subscriber → Except ε (Subscriber × List (Ev α ε)))
    (s : Subscriber) : Subscriber × List (Ev α ε) :=
  match transform s with
  | Except.ok r => r
  | Except.error e => Subscriber.error s e

/-- Mutable state of one active exhaustAll subscription, from
src/internal/operators/exhaustAll.ts: `let isComplete = false;
let innerSub: Subscription | null = null;` plus the closed flag of the
downstream subscriber (per spec section 4.2 a closed subscriber suppresses
further notifications). The active inner subscription handle is represented
by the Nat identifier of the inner producer it subscribed to. -/
structure ExhaustState where
  isComplete : Bool
  innerSub : Option Nat
  downClosed : Bool
deriving DecidableEq, Repr

/-- Ghost environment tracking ground truth about the world outside the
operator: whether the source subscription is still able to deliver events,
and which inner producer (if any) is actually subscribed and not yet
terminated. Used to state invariants relating the operator state to
reality. -/
structure ExhaustEnv where
  sourceAlive : Bool
  running : Option Nat
deriving DecidableEq, Repr

/-- A configuration pairs the operator state with the ghost environment. -/
structure ExhaustConfig where
  st : ExhaustState
  env : ExhaustEnv
deriving DecidableEq, Repr

/-- An event an inner producer performs synchronously, while the subscribe
call made on it by exhaustAll is still on the stack. -/
inductive InnerSync (α ε : Type) where
  | snext (v : α)
  | scomplete
  | serror (e : ε)
deriving DecidableEq, Repr

/-- An input event delivered to the exhaustAll operator: the source emits an
inner producer (identified by a Nat, together with whatever that inner does
synchronously during subscribe), the source terminates, or the currently
subscribed inner emits or terminates asynchronously (in a later call). -/
inductive EInput (α ε : Type) where
  | sourceNext (i : Nat) (sync : List (InnerSync α ε))
  | sourceComplete
  | sourceError (e : ε)
  | innerNext (v : α)
  | innerComplete
  | innerError (e : ε)
deriving DecidableEq, Repr

/-- An observable effect of the operator: subscribing to an inner producer,
or sending a notification downstream. -/
inductive EEffect (α ε : Type) where
  | subscribeInner (i : Nat)
  | down (n : Notification α ε)
deriving DecidableEq, Repr

/-- Downstream subscriber.next per spec section 4.2: suppressed once the
downstream subscriber is closed. -/
def downNext (st : ExhaustState) (v : α) : ExhaustState × List (EEffect α ε) :=
  if st.downClosed then (st, []) else (st, [EEffect.down (Notification.next v)])

/-- Downstream subscriber.error per spec section 4.2: marks the downstream
subscriber closed and delivers ERROR, unless already closed. -/
def downError (st : ExhaustState) (e : ε) : ExhaustState × List (EEffect α ε) :=
  if st.downClosed then (st, [])
  else ({ st with downClosed := true }, [EEffect.down (Notification.error e)])

/-- Downstream subscriber.complete per spec section 4.2: marks the downstream
subscriber closed and delivers COMPLETE, unless already closed. -/
def downComplete (st : ExhaustState) : ExhaustState × List (EEffect α ε) :=
  if st.downClosed then (st, [])
  else ({ st with downClosed := true }, [EEffect.down Notification.complete])

/-- Result of processing the synchronous phase of one inner subscribe call:
the operator state afterwards, whether the inner terminated during that
phase, whether it terminated with an error, and the effects produced. -/
structure SyncOut (α ε : Type) where
  st : ExhaustState
  innerClosed : Bool
  errored : Bool
  effs : List (EEffect α ε)
deriving DecidableEq, Repr

/-- Processes the events an inner producer performs synchronously inside
`innerFrom(inner).subscribe(new OperatorSubscriber(subscriber, undefined,
undefined, () => { innerSub = null; isComplete && subscriber.complete(); }))`
(src/internal/operators/exhaustAll.ts lines 61-66). The inner
OperatorSubscriber forwards next and error to the downstream subscriber
verbatim (its next and error hooks are undefined) and runs the complete hook
`innerSub = null; isComplete && subscriber.complete()` on complete; once the
inner subscriber is closed by a terminal event, later events are suppressed
(spec section 4.2). NOTE: at this point the assignment to innerSub performed
by `innerSub = ... .subscribe(...)` has not happened yet, since the subscribe
call has not returned; the hook mutates the innerSub variable as it stands. -/
def procSync (st : ExhaustState) (innerClosed errored : Bool) :
    List (InnerSync α ε) → SyncOut α ε
  | [] => ⟨st, innerClosed, errored, []⟩
  | InnerSync.snext v :: rest =>
    if innerClosed then procSync st innerClosed errored rest
    else
      let (st1, effs) := downNext st v
      let out := procSync st1 innerClosed errored rest
      ⟨out.st, out.innerClosed, out.errored, effs ++ out.effs⟩
  | InnerSync.scomplete :: rest =>
    if innerClosed then procSync st innerClosed errored rest
    else
      let st1 : ExhaustState := { st with innerSub := none }
      let (st2, effs) :=
        if st1.isComplete then downComplete st1 else (st1, ([] : List (EEffect α ε)))
      let out := procSync st2 true errored rest
      ⟨out.st, out.innerClosed, out.errored, effs ++ out.effs⟩
  | InnerSync.serror e :: rest =>
    if innerClosed then procSync st innerClosed errored rest
    else
      let (st2, effs) := downError st e
      let out := procSync st2 true true rest
      ⟨out.st, out.innerClosed, out.errored, effs ++ out.effs⟩

/-- One step of the exhaustAll operator, translated from
src/internal/operators/exhaustAll.ts lines 53-76. On sourceNext: if innerSub
is set the value is discarded, else the inner is subscribed (its synchronous
events are processed) and then, as the subscribe call returns, its
subscription handle is assigned to innerSub — unconditionally, even when the
inner already completed during the subscribe call. On sourceComplete:
`isComplete = true; !innerSub && subscriber.complete()`. On the subscribed
inner completing asynchronously: the complete hook
`innerSub = null; isComplete && subscriber.complete()`. Source and inner
errors are forwarded downstream (the error hooks are undefined). The ghost
environment records that terminating or tearing down the source or the inner
ends its ability to deliver events. -/
def exhaustAllStep (c : ExhaustConfig) : EInput α ε → ExhaustConfig × List (EEffect α ε)
  | EInput.sourceNext i sync =>
    match c.st.innerSub with
    | some _ => (c, [])
    | none =>
      let out := procSync c.st false false sync
      let st2 : ExhaustState := { out.st with innerSub := some i }
      let running2 : Option Nat :=
        if out.innerClosed || out.st.downClosed then none else some i
      let alive2 : Bool := c.env.sourceAlive && !out.st.downClosed
      (⟨st2, ⟨alive2, running2⟩⟩, EEffect.subscribeInner i :: out.effs)
  | EInput.sourceComplete =>
    let st1 : ExhaustState := { c.st with isComplete := true }
    let (st2, effs) :=
      if st1.innerSub.isNone then downComplete st1 else (st1, ([] : List (EEffect α ε)))
    (⟨st2, { c.env with sourceAlive := false }⟩, effs)
  | EInput.sourceError e =>
    let (st2, effs) := downError c.st e
    (⟨st2, ⟨false, none⟩⟩, effs)
  | EInput.innerNext v =>
    let (st2, effs) := downNext c.st v
    (⟨st2, c.env⟩, effs)
  | EInput.innerComplete =>
    let st1 : ExhaustState := { c.st with innerSub := none }
    let (st2, effs) :=
      if st1.isComplete then downComplete st1 else (st1, ([] : List (EEffect α ε)))
    (⟨st2, { c.env with running := none }⟩, effs)
  | EInput.innerError e =>
    let (st2, effs) := downError c.st e
    (⟨st2, ⟨false, none⟩⟩, effs)

/-- Whether an input event can actually occur at a configuration: the source
can only emit or terminate while its subscription is alive, and inner events
can only arrive while an inner is actually subscribed and unterminated. -/
def validIn (c : ExhaustConfig) : EInput α ε → Bool
  | EInput.sourceNext _ _ => c.env.sourceAlive
  | EInput.sourceComplete => c.env.sourceAlive
  | EInput.sourceError _ => c.env.sourceAlive
  | EInput.innerNext _ => c.env.running.isSome
  | EInput.innerComplete => c.env.running.isSome
  | EInput.innerError _ => c.env.running.isSome

/-- Whether a whole input trace is step-by-step valid from a configuration. -/
def validTrace (c : ExhaustConfig) : List (EInput α ε) → Bool
  | [] => true
  | i :: rest => validIn c i && validTrace (exhaustAllStep c i).1 rest

/-- Runs the operator over an input trace, concatenating all effects. -/
def exhaustAllRun (c : ExhaustConfig) : List (EInput α ε) → ExhaustConfig × List (EEffect α ε)
  | [] => (c, [])
  | i :: rest =>
    let (c1, e1) := exhaustAllStep c i
    let (c2, e2) := exhaustAllRun c1 rest
    (c2, e1 ++ e2)

/-- The initial configuration of a fresh exhaustAll subscription:
`isComplete = false`, `innerSub = null`, downstream open, source alive,
no inner running. -/
def exhaustAllInit : ExhaustConfig :=
  ⟨⟨false, none, false⟩, ⟨true, none⟩⟩

/-- Denotation of the exhaustAll operator (src/internal/operators/
exhaustAll.ts, exhaustAll): the configuration reached and the effects
produced when a fresh subscription processes an input trace. -/
def exhaustAll : List (EInput α ε) → ExhaustConfig × List (EEffect α ε) :=
  exhaustAllRun exhaustAllInit

/-- The deprecated alias, from `export const exhaust = exhaustAll`
(src/internal/operators/exhaustAll.ts lines 79-82). -/
def exhaust : List (EInput α ε) → ExhaustConfig × List (EEffect α ε) :=
  exhaustAll

/-- The downstream notification log contained in an effect list. -/
def downLog : List (EEffect α ε) → List (Notification α ε)
  | [] => []
  | EEffect.down n :: rest => n :: downLog rest
  | EEffect.subscribeInner _ :: rest => downLog rest

/-- The trace of the synchronous-inner scenario from the spec: the source
emits inner number 0, which completes synchronously with no values during
the subscribe call, and then the source completes synchronously. -/
def syncInnerTrace : List (EInput Nat Nat) :=
  [EInput.sourceNext 0 [InnerSync.scomplete], EInput.sourceComplete]

/-- The one-step trace in which the source emits inner number 0 and that
inner completes synchronously during the subscribe call. -/
def staleHandleTrace : List (EInput Nat Nat) :=
  [EInput.sourceNext 0 [InnerSync.scomplete]]

/-- C1: the claim says the downstream log of the synchronous-inner scenario
is exactly [COMPLETE]. On the code it is empty: the inner's complete hook
nulls innerSub before the assignment `innerSub = ... .subscribe(...)` runs,
so innerSub ends up holding the already-closed inner subscription, and at
source completion `!innerSub && subscriber.complete()` does not fire. The
trace is valid and downstream is never completed. -/
theorem exhaustAll_syncInner_never_completes :
    validTrace exhaustAllInit syncInnerTrace = true ∧
    exhaustAll syncInnerTrace =
      (⟨⟨true, some 0, false⟩, ⟨false, none⟩⟩, [EEffect.subscribeInner 0]) ∧
    downLog (exhaustAll syncInnerTrace).2 = [] := by
  decide

/-- C2: the claim says innerSub is present iff an inner sequence is running.
Counterexample on the code: after the source emits an inner that completes
synchronously during subscribe, the reachable configuration is still active
(downstream open, source alive) yet innerSub holds the stale handle some 0
while no inner is running. -/
theorem exhaustAll_staleHandle_breaks_iff :
    validTrace exhaustAllInit staleHandleTrace = true ∧
    (exhaustAll staleHandleTrace).1.st.downClosed = false ∧
    (exhaustAll staleHandleTrace).1.env.sourceAlive = true ∧
    (exhaustAll staleHandleTrace).1.st.innerSub = some 0 ∧
    (exhaustAll staleHandleTrace).1.env.running = none := by
  decide

/-- C3: the claim says the output completes exactly when the source has
completed and no inner is active. On the code, after the synchronous-inner
trace the source has completed and no inner is active, yet downstream was
never completed, and no valid input can ever arrive to complete it. -/
theorem exhaustAll_complete_condition_violated :
    validTrace exhaustAllInit syncInnerTrace = true ∧
    (exhaustAll syncInnerTrace).1.env.sourceAlive = false ∧
    (exhaustAll syncInnerTrace).1.env.running = none ∧
    (exhaustAll syncInnerTrace).1.st.downClosed = false ∧
    downLog (exhaustAll syncInnerTrace).2 = [] ∧
    ∀ i : EInput Nat Nat, validIn (exhaustAll syncInnerTrace).1 i = false := by
  refine ⟨by decide, by decide, by decide, by decide, by decide, ?_⟩
  intro i
  cases i <;> rfl

/-- Witness instantiating the universally quantified part of the C3 theorem
at the concrete input sourceComplete. -/
theorem exhaustAll_complete_condition_violated_witness :
    validIn (exhaustAll syncInnerTrace).1 (EInput.sourceComplete : EInput Nat Nat) = false :=
  exhaustAll_complete_condition_violated.2.2.2.2.2 EInput.sourceComplete

/-- C4: a higher-order value arriving from the source while innerSub is
present is discarded silently: the state is unchanged, no subscription is
created and no notification is produced (src/internal/operators/
exhaustAll.ts lines 59-68, the `if (!innerSub)` guard). -/
theorem exhaustAll_discards_while_inner_present (c : ExhaustConfig) (j : Nat)
    (h : c.st.innerSub = some j) (i : Nat) (sync : List (InnerSync α ε)) :
    exhaustAllStep c (EInput.sourceNext i sync) = (c, []) := by
  simp only [exhaustAllStep, h]

/-- Witness for C4 at a concrete configuration with an active inner. -/
theorem exhaustAll_discards_while_inner_present_witness :
    exhaustAllStep ⟨⟨false, some 0, false⟩, ⟨true, some 0⟩⟩
        (EInput.sourceNext 1 [] : EInput Nat Nat) =
      (⟨⟨false, some 0, false⟩, ⟨true, some 0⟩⟩, []) :=
  exhaustAll_discards_while_inner_present _ 0 rfl 1 []

/-- C5: after the first complete() or error(e) the closed flag is true and
stays true, and on a closed Subscriber every next, error or complete call is
a no-op: the state is unchanged and no notification reaches the
destination. -/
theorem subscriber_closed_after_terminal (s : Subscriber) (v : α) (e : ε) :
    (Subscriber.complete s : Subscriber × List (Ev α ε)).1.closed = true ∧
    (Subscriber.error s e : Subscriber × List (Ev α ε)).1.closed = true ∧
    (s.closed = true →
      Subscriber.next s v = (s, ([] : List (Ev α ε))) ∧
      Subscriber.error s e = (s, ([] : List (Ev α ε))) ∧
      (Subscriber.complete s : Subscriber × List (Ev α ε)) = (s, [])) := by
  by_cases hc : s.closed <;>
    simp [Subscriber.complete, Subscriber.error, Subscriber.next, hc]

/-- Witness for C5 at a concrete open Subscriber. -/
theorem subscriber_closed_after_terminal_witness :
    (Subscriber.complete ⟨false, ⟨false, [0]⟩⟩ : Subscriber × List (Ev Nat Nat)).1.closed = true ∧
    (Subscriber.error ⟨false, ⟨false, [0]⟩⟩ 5 : Subscriber × List (Ev Nat Nat)).1.closed = true ∧
    ((⟨false, ⟨false, [0]⟩⟩ : Subscriber).closed = true →
      Subscriber.next ⟨false, ⟨false, [0]⟩⟩ 3 = (⟨false, ⟨false, [0]⟩⟩, ([] : List (Ev Nat Nat))) ∧
      Subscriber.error ⟨false, ⟨false, [0]⟩⟩ 5 = (⟨false, ⟨false, [0]⟩⟩, ([] : List (Ev Nat Nat))) ∧
      (Subscriber.complete ⟨false, ⟨false, [0]⟩⟩ : Subscriber × List (Ev Nat Nat)) = (⟨false, ⟨false, [0]⟩⟩, [])) :=
  subscriber_closed_after_terminal ⟨false, ⟨false, [0]⟩⟩ 3 5

/-- C6: every next call made on an open Subscriber forwards its value as a
NEXT notification to the destination, in call order, and the Subscriber
state (hence the closed flag, still false) is unchanged throughout. -/
theorem subscriber_runNexts_forwards (s : Subscriber) (vs : List α)
    (h : s.closed = false) :
    Subscriber.runNexts s vs =
      (s, vs.map fun v => (Ev.notif (Notification.next v) : Ev α ε)) := by
  induction vs with
  | nil => simp [Subscriber.runNexts]
  | cons v vs ih => simp [Subscriber.runNexts, Subscriber.next, h, ih]

/-- Witness for C6 on the test's value sequence 1, 2. -/
theorem subscriber_runNexts_forwards_witness :
    Subscriber.runNexts (⟨false, ⟨false, []⟩⟩ : Subscriber) [1, 2] =
      ((⟨false, ⟨false, []⟩⟩ : Subscriber),
        ([Ev.notif (Notification.next 1), Ev.notif (Notification.next 2)] :
          List (Ev Nat Nat))) :=
  subscriber_runNexts_forwards ⟨false, ⟨false, []⟩⟩ [1, 2] rfl

/-- C7: on an open Subscriber with an open disposal node, complete() sends
exactly one COMPLETE notification with no payload and error(e) exactly one
ERROR carrying e; in both cases the bound disposal node is closed and every
finalizer registered on it runs exactly once, in registration order. -/
theorem subscriber_terminal_once_and_closes_node (s : Subscriber) (e : ε)
    (hs : s.closed = false) (hn : s.subs.closed = false) :
    (Subscriber.complete s : Subscriber × List (Ev α ε)) =
      (⟨true, ⟨true, []⟩⟩,
        Ev.notif Notification.complete :: s.subs.finalizers.map Ev.final) ∧
    (Subscriber.error s e : Subscriber × List (Ev α ε)) =
      (⟨true, ⟨true, []⟩⟩,
        Ev.notif (Notification.error e) :: s.subs.finalizers.map Ev.final) := by
  simp [Subscriber.complete, Subscriber.error, Subscription.close, hs, hn]

/-- Witness for C7: the test scenario with one registered finalizer. -/
theorem subscriber_terminal_once_and_closes_node_witness :
    (Subscriber.complete ⟨false, ⟨false, [0]⟩⟩ : Subscriber × List (Ev Nat Nat)) =
      (⟨true, ⟨true, []⟩⟩, [Ev.notif Notification.complete, Ev.final 0]) ∧
    (Subscriber.error ⟨false, ⟨false, [0]⟩⟩ 7 : Subscriber × List (Ev Nat Nat)) =
      (⟨true, ⟨true, []⟩⟩, [Ev.notif (Notification.error 7), Ev.final 0]) :=
  subscriber_terminal_once_and_closes_node ⟨false, ⟨false, [0]⟩⟩ 7 rfl rfl

/-- C8: in the effect sequence of one terminal call on an open Subscriber,
the terminal notification is delivered first and everything after it is a
finalizer run: the destination receives the notification strictly before any
teardown of the bound disposal node. -/
theorem subscriber_notifies_before_teardown (s : Subscriber) (e : ε)
    (hs : s.closed = false) :
    ((Subscriber.error s e : Subscriber × List (Ev α ε)).2.head? =
        some (Ev.notif (Notification.error e)) ∧
      (Subscriber.error s e : Subscriber × List (Ev α ε)).2.tail.all isFinalEv = true) ∧
    ((Subscriber.complete s : Subscriber × List (Ev α ε)).2.head? =
        some (Ev.notif Notification.complete) ∧
      (Subscriber.complete s : Subscriber × List (Ev α ε)).2.tail.all isFinalEv = true) := by
  by_cases hn : s.subs.closed <;>
    simp [Subscriber.error, Subscriber.complete, Subscription.close, hs, hn,
      List.all_eq_true, isFinalEv]

/-- Witness for C8 at a concrete open Subscriber with two finalizers. -/
theorem subscriber_notifies_before_teardown_witness :
    ((Subscriber.error ⟨false, ⟨false, [0, 1]⟩⟩ 9 : Subscriber × List (Ev Nat Nat)).2.head? =
        some (Ev.notif (Notification.error 9)) ∧
      (Subscriber.error ⟨false, ⟨false, [0, 1]⟩⟩ 9 : Subscriber × List (Ev Nat Nat)).2.tail.all isFinalEv = true) ∧
    ((Subscriber.complete ⟨false, ⟨false, [0, 1]⟩⟩ : Subscriber × List (Ev Nat Nat)).2.head? =
        some (Ev.notif Notification.complete) ∧
      (Subscriber.complete ⟨false, ⟨false, [0, 1]⟩⟩ : Subscriber × List (Ev Nat Nat)).2.tail.all isFinalEv = true) :=
  subscriber_notifies_before_teardown ⟨false, ⟨false, [0, 1]⟩⟩ 9 rfl

/-- C9: when the transform passed to operate throws synchronously while
wiring up, the failure is converted into exactly the error path of the outer
Subscriber: an ERROR notification carrying the failure is delivered first,
the Subscriber closes and its disposal node is closed, as on any other
error. -/
theorem operate_wiring_error_notifies
    (transform : Subscriber → Except ε (Subscriber × List (Ev α ε)))
    (s : Subscriber) (e : ε) (ht : transform s = Except.error e)
    (hs : s.closed = false) :
    operate transform s = Subscriber.error s e ∧
    (operate transform s).2.head? = some (Ev.notif (Notification.error e)) ∧
    (operate transform s).1.closed = true ∧
    (operate transform s).1.subs.closed = true := by
  by_cases hn : s.subs.closed <;>
    simp [operate, ht, Subscriber.error, Subscription.close, hs, hn]

/-- Witness for C9 with a transform that always throws. -/
theorem operate_wiring_error_notifies_witness :
    operate (fun _ => (Except.error 5 : Except Nat (Subscriber × List (Ev Nat Nat))))
        ⟨false, ⟨false, [2]⟩⟩ =
      Subscriber.error ⟨false, ⟨false, [2]⟩⟩ 5 ∧
    (operate (fun _ => (Except.error 5 : Except Nat (Subscriber × List (Ev Nat Nat))))
        ⟨false, ⟨false, [2]⟩⟩).2.head? = some (Ev.notif (Notification.error 5)) ∧
    (operate (fun _ => (Except.error 5 : Except Nat (Subscriber × List (Ev Nat Nat))))
        ⟨false, ⟨false, [2]⟩⟩).1.closed = true ∧
    (operate (fun _ => (Except.error 5 : Except Nat (Subscriber × List (Ev Nat Nat))))
        ⟨false, ⟨false, [2]⟩⟩).1.subs.closed = true :=
  operate_wiring_error_notifies _ ⟨false, ⟨false, [2]⟩⟩ 5 rfl rfl

/-- C10: the deprecated export exhaust is the very same function as
exhaustAll, so for every input trace it produces exactly the same
configuration and effects. -/
theorem exhaust_is_exhaustAll : @exhaust = @exhaustAll :=
  rfl
